import Mathlib

/-!
# Verification of the file-storage abstract-factory data-access layer

Shallow embedding of `src/JavaScript/1-file-storage.js`.

The program defines an abstract factory (`DataAccessLayer`), an abstract
database handle (`Database`), an abstract `Cursor`, and one concrete
backend: `FsDataAccess` / `FileStorage` / `FileLineCursor`, which streams
newline-delimited JSON records from a file and filters them by a query of
strict field equalities.

Modelling decisions, each tied to the source:
* JavaScript values relevant to the program are `undefined`, `null`,
  booleans, numbers, and strings (`JsValue`).  The records in the demo
  file hold only such scalars; strict equality `===` on them is
  structural equality, which `DecidableEq` captures.  Numbers are
  modelled as `Int`: the program performs no arithmetic, only `===`.
* `JSON.parse` is a Node builtin (external to the repository), so a raw
  line is modelled by its parse outcome (`RawLine`): either a line that
  parses to a JSON object, or a malformed line on which `JSON.parse`
  throws.  `JSON.parse` can never produce the value `undefined`, which
  `JsonValue` (no `undef` constructor) records.
* The `readline` async iterator over the file stream is modelled as a
  `List RawLine` of remaining lines; `lines.next()` pops the head, or
  reports `done` when the list is empty.  The stream belongs to the
  `FileStorage` handle (`this.fileStream`, line 103) and is shared by
  every cursor the handle creates (line 73), which the definitions for
  multi-cursor scenarios make explicit by threading the remaining-lines
  state from one cursor's run into the next.
-/

set_option autoImplicit false

/-- A JSON value as produced by `JSON.parse` for the scalar records the
program processes.  `JSON.parse` never returns `undefined`. -/
inductive JsonValue where
  | null
  | boolean (b : Bool)
  | number (n : Int)
  | string (s : String)
  deriving DecidableEq, Repr

/-- A JavaScript value as seen by the strict-equality comparison on
line 90: either `undefined` (the result of reading an absent property)
or a JSON value. -/
inductive JsValue where
  | undef
  | val (v : JsonValue)
  deriving DecidableEq, Repr

/-- A decoded record: the own enumerable properties of the object
returned by `JSON.parse(value)` (line 86).  Field values are
`JsonValue`s, never `undefined`. -/
abbrev Record := List (String × JsonValue)

/-- A query object passed to `select` (line 106): fields mapped to the
values compared with `===` on line 90.  A query property may hold
`undefined`, so values are `JsValue`s. -/
abbrev Query := List (String × JsValue)

/-- Property read `data[field]` on line 90: the field's value when
present, `undefined` when absent. -/
def recordGet (data : Record) (field : String) : JsValue :=
  match data.lookup field with
  | some v => JsValue.val v
  | none => JsValue.undef

/-- The filter loop of lines 87-91:
`condition = condition && data[field] === query[field]` over every field
of the query, starting from `true`. -/
def queryMatches (query : Query) (data : Record) : Bool :=
  query.all fun fv => decide (recordGet data fv.1 = fv.2)

/-- A raw line pulled from the readline iterator, represented by its
`JSON.parse` outcome (the parser itself is a Node builtin, external to
the repository). -/
inductive RawLine where
  | jsonObj (fields : Record)
  | malformed (text : String)
  deriving DecidableEq, Repr

/-- Whether a raw line parses as a JSON object. -/
def RawLine.isJson : RawLine → Bool
  | .jsonObj _ => true
  | .malformed _ => false

/-- The message of the `SyntaxError` that `JSON.parse` throws on a
malformed line. -/
def parseErrorMessage (text : String) : String :=
  "Unexpected token in JSON: " ++ text

/-- `JSON.parse(value)` on line 86: returns the decoded record, or
throws on a malformed line. -/
def jsonParse : RawLine → Except String Record
  | .jsonObj fields => .ok fields
  | .malformed text => .error (parseErrorMessage text)

/-- The records a fully well-formed source decodes to, in source
order. -/
def decodedRecords (stream : List RawLine) : List Record :=
  stream.filterMap fun l =>
    match l with
    | .jsonObj fields => some fields
    | .malformed _ => none

/-- State of a `FileLineCursor` (lines 68-76): its query and the
`current` counter inherited from `Cursor` (line 60).  The readline
iterator `this.lines` is the shared stream state, threaded separately
(see the module docstring). -/
structure FileLineCursor where
  query : Query
  current : Nat
  deriving DecidableEq, Repr

/-- Outcome of one call to the async iterator's `next()` (lines 81-94):
a matching record (`{ value, done: false }`), exhaustion
(`{ done: true }`), or a rejected promise carrying the `JSON.parse`
error. -/
inductive NextResult where
  | value (record : Record)
  | done
  | failed (message : String)
  deriving DecidableEq, Repr

/-- Result of one `next()` call together with the updated shared stream
and cursor state. -/
structure StepResult where
  result : NextResult
  stream : List RawLine
  cursor : FileLineCursor
  deriving DecidableEq, Repr

/-- The `next()` method of `FileLineCursor[Symbol.asyncIterator]`
(lines 81-94): loop pulling `cursor.lines.next()`; on `done` return
`{ done: true }`; otherwise increment `cursor.current`, run
`JSON.parse` (a throw rejects the promise), test the query, and either
return the record or loop. -/
def cursorNext : List RawLine → FileLineCursor → StepResult
  | [], c => ⟨.done, [], c⟩
  | line :: rest, c =>
    let c1 : FileLineCursor := { c with current := c.current + 1 }
    match jsonParse line with
    | .error e => ⟨.failed e, rest, c1⟩
    | .ok data =>
      if queryMatches c.query data then ⟨.value data, rest, c1⟩
      else cursorNext rest c1

/-- `n` caller-visible advance calls: iterate `next()`, tracking the
shared stream and the cursor state. -/
def advanceN : Nat → List RawLine × FileLineCursor → List RawLine × FileLineCursor
  | 0, s => s
  | n + 1, s =>
    let step := cursorNext s.1 s.2
    advanceN n (step.stream, step.cursor)

/-- Observable outcome of driving a cursor to completion with
`for await` (lines 118-120): the records yielded in order, the decode
error that aborted the loop (if any), and the final stream and cursor
states. -/
structure DriveResult where
  yielded : List Record
  failure : Option String
  stream : List RawLine
  cursor : FileLineCursor
  deriving DecidableEq, Repr

/-- Driving the cursor to completion: call `next()` repeatedly,
collecting yielded records, until `{ done: true }` or a rejection.
Stated by recursion over the remaining lines; the theorem
`driveAll_eq_next` proves this equals iterating `cursorNext`. -/
def driveAll : List RawLine → FileLineCursor → DriveResult
  | [], c => ⟨[], none, [], c⟩
  | line :: rest, c =>
    let c1 : FileLineCursor := { c with current := c.current + 1 }
    match jsonParse line with
    | .error e => ⟨[], some e, rest, c1⟩
    | .ok data =>
      let out := driveAll rest c1
      if queryMatches c.query data then { out with yielded := data :: out.yielded }
      else out

/-- `driveAll` is exactly "call `next()` repeatedly until done or
error": it satisfies the defining recurrence of the `for await` loop
over `cursorNext`. -/
theorem driveAll_eq_next (st : List RawLine) (c : FileLineCursor) :
    driveAll st c =
      match cursorNext st c with
      | ⟨.done, st', c'⟩ => ⟨[], none, st', c'⟩
      | ⟨.failed e, st', c'⟩ => ⟨[], some e, st', c'⟩
      | ⟨.value r, st', c'⟩ =>
        let out := driveAll st' c'
        ⟨r :: out.yielded, out.failure, out.stream, out.cursor⟩ := by
  induction st generalizing c with
  | nil => rfl
  | cons line rest ih =>
    cases hline : jsonParse line with
    | error e => simp [driveAll, cursorNext, hline]
    | ok data =>
      by_cases hm : queryMatches c.query data
      · simp [driveAll, cursorNext, hline, hm]
      · simpa [driveAll, cursorNext, hline, hm] using
          ih { c with current := c.current + 1 }

/-- Helper: on a stream of well-formed lines the drive yields exactly
the matching records in order, consumes the whole stream, reports no
failure, and ends with `current` advanced by the stream length. -/
theorem driveAll_spec (st : List RawLine) (q : Query) (n : Nat)
    (h : ∀ l ∈ st, l.isJson = true) :
    driveAll st ⟨q, n⟩ =
      ⟨(decodedRecords st).filter (queryMatches q), none, [], ⟨q, n + st.length⟩⟩ := by
  induction st generalizing n with
  | nil => rfl
  | cons line rest ih =>
    cases line with
    | malformed t => simpa [RawLine.isJson] using h (.malformed t) (by simp)
    | jsonObj fields =>
      have hrest : ∀ l ∈ rest, l.isJson = true := fun l hl => h l (by simp [hl])
      by_cases hm : queryMatches q fields
      · simp [driveAll, jsonParse, decodedRecords, hm, ih (n + 1) hrest,
          Nat.add_assoc, Nat.add_comm 1 rest.length]
      · simp [driveAll, jsonParse, decodedRecords, hm, ih (n + 1) hrest,
          Nat.add_assoc, Nat.add_comm 1 rest.length]

/-- Helper: one `next()` call preserves `current + remaining lines`:
every raw unit removed from the stream is counted exactly once. -/
theorem cursorNext_current_add_length (st : List RawLine) (c : FileLineCursor) :
    (cursorNext st c).cursor.current + (cursorNext st c).stream.length =
      c.current + st.length := by
  induction st generalizing c with
  | nil => rfl
  | cons line rest ih =>
    cases hline : jsonParse line with
    | error e => simp [cursorNext, hline]; omega
    | ok data =>
      by_cases hm : queryMatches c.query data
      · simp [cursorNext, hline, hm]; omega
      · have := ih { c with current := c.current + 1 }
        simp [cursorNext, hline, hm] at this ⊢
        omega

/-- Helper: one `next()` call never shrinks `current`. -/
theorem cursorNext_current_mono (st : List RawLine) (c : FileLineCursor) :
    c.current ≤ (cursorNext st c).cursor.current := by
  induction st generalizing c with
  | nil => exact Nat.le_refl _
  | cons line rest ih =>
    cases hline : jsonParse line with
    | error e => simp [cursorNext, hline]
    | ok data =>
      by_cases hm : queryMatches c.query data
      · simp [cursorNext, hline, hm]
      · have := ih { c with current := c.current + 1 }
        simp [cursorNext, hline, hm] at this ⊢
        omega

/-- Helper: one `next()` call never changes the query. -/
theorem cursorNext_query (st : List RawLine) (c : FileLineCursor) :
    (cursorNext st c).cursor.query = c.query := by
  induction st generalizing c with
  | nil => rfl
  | cons line rest ih =>
    cases hline : jsonParse line with
    | error e => simp [cursorNext, hline]
    | ok data =>
      by_cases hm : queryMatches c.query data
      · simp [cursorNext, hline, hm]
      · simpa [cursorNext, hline, hm] using ih { c with current := c.current + 1 }

/-- Helper: `next()` reports `done` only once the stream is fully
consumed, and the `done` report leaves the (empty) stream unchanged. -/
theorem cursorNext_done_stream (st : List RawLine) (c : FileLineCursor)
    (h : (cursorNext st c).result = .done) :
    (cursorNext st c).stream = [] := by
  induction st generalizing c with
  | nil => rfl
  | cons line rest ih =>
    cases hline : jsonParse line with
    | error e => simp [cursorNext, hline] at h
    | ok data =>
      by_cases hm : queryMatches c.query data
      · simp [cursorNext, hline, hm] at h
      · have h' : (cursorNext rest { c with current := c.current + 1 }).result = .done := by
          simpa [cursorNext, hline, hm] using h
        simpa [cursorNext, hline, hm] using ih _ h'

/-- Helper: a `next()` call on the exhausted stream returns
`{ done: true }` and changes nothing. -/
theorem cursorNext_nil (c : FileLineCursor) :
    cursorNext [] c = ⟨.done, [], c⟩ := rfl

/-- Helper: advancing an exhausted cursor any number of times leaves
its state unchanged. -/
theorem advanceN_nil (k : Nat) (c : FileLineCursor) :
    advanceN k ([], c) = ([], c) := by
  induction k with
  | zero => rfl
  | succ k ih => simpa [advanceN, cursorNext] using ih

/-- A JavaScript object reference relevant to the abstract-class guards:
either the prototype object `C.prototype` of a class, or the class
constructor function `C` itself.  In JavaScript these are always two
distinct objects, which the two constructors capture; `===` on object
references is reference equality, modelled by `DecidableEq`. -/
inductive JsObjectRef where
  | prototypeOf (className : String)
  | classFn (className : String)
  deriving DecidableEq, Repr

/-- `Object.getPrototypeOf(this)` for an instance built by `new C(...)`
with no intervening subclass: the class's prototype object. -/
def instancePrototype (className : String) : JsObjectRef :=
  .prototypeOf className

/-- The guard of the `DataAccessLayer` constructor (lines 9-14):
`if (Object.getPrototypeOf(this) === DataAccessLayer) throw`, where
`DataAccessLayer` on the right is the class constructor function. -/
def dataAccessLayerConstructor (thisProto : JsObjectRef) : Except String Unit :=
  if thisProto = JsObjectRef.classFn "DataAccessLayer" then
    .error "abstract class should not be instanciated"
  else .ok ()

/-- `new DataAccessLayer()`: the instance's prototype is
`DataAccessLayer.prototype`. -/
def newDataAccessLayer : Except String Unit :=
  dataAccessLayerConstructor (instancePrototype "DataAccessLayer")

/-- The base `createDatabase` method (lines 16-18): always throws. -/
def baseCreateDatabase : Except String Unit :=
  .error "abstract class should not be instanciated"

/-- The base `createCursor` method (lines 20-22): always throws. -/
def baseCreateCursor : Except String Unit :=
  .error "abstract class should not be instanciated"

/-- State set up by the `Database` base constructor (line 45):
`this.dal`, an opaque reference to the factory. -/
structure DatabaseState where
  dal : String
  deriving DecidableEq, Repr

/-- The `Database` constructor (lines 40-46): guard
`Object.getPrototypeOf(this) === Database`, then `this.dal = dal`. -/
def databaseConstructor (thisProto : JsObjectRef) (dal : String) :
    Except String DatabaseState :=
  if thisProto = JsObjectRef.classFn "Database" then
    .error "abstract class should not be instanciated"
  else .ok { dal }

/-- `new Database(dal)`: the instance's prototype is
`Database.prototype`. -/
def newDatabase (dal : String) : Except String DatabaseState :=
  databaseConstructor (instancePrototype "Database") dal

/-- The base `select` method (lines 48-50): always throws. -/
def baseSelect : Except String Unit :=
  .error "select method is not implemented"

/-- State set up by the `Cursor` base constructor (lines 59-60):
`this.dal` and `this.current = 0`. -/
structure CursorState where
  dal : String
  current : Nat
  deriving DecidableEq, Repr

/-- The `Cursor` constructor (lines 54-61): guard
`Object.getPrototypeOf(this) === Cursor`, then `this.dal = dal;
this.current = 0`. -/
def cursorConstructor (thisProto : JsObjectRef) (dal : String) :
    Except String CursorState :=
  if thisProto = JsObjectRef.classFn "Cursor" then
    .error "abstract class should not be instanciated"
  else .ok { dal, current := 0 }

/-- `new Cursor(dal)`: the instance's prototype is `Cursor.prototype`. -/
def newCursor (dal : String) : Except String CursorState :=
  cursorConstructor (instancePrototype "Cursor") dal

/-- The base `[Symbol.asyncIterator]` method (lines 63-65): always
throws. -/
def baseAsyncIterator : Except String Unit :=
  .error "iterator is not implemented"

/-- A `FileStorage` handle (lines 99-110): the file name and the single
read stream `this.fileStream` opened in the constructor (line 103),
modelled by the file's line content.  The filesystem is external, so
the content read by `fs.createReadStream(fileName)` is passed in. -/
structure FileStorage where
  fileName : String
  fileStream : List RawLine
  deriving DecidableEq, Repr

/-- `FsDataAccess.createDatabase(...args)` (lines 28-30): constructs a
`FileStorage` over the named file.  Each call runs
`fs.createReadStream` anew, so each handle gets a fresh stream over the
file's content. -/
def FsDataAccess.createDatabase (fileName : String) (content : List RawLine) :
    FileStorage :=
  { fileName, fileStream := content }

/-- `FsDataAccess.createCursor(this, fileStorage, query)` (lines 32-34)
via the `FileLineCursor` constructor (lines 69-76): a fresh cursor with
`current = 0` whose readline iterator wraps `fileStorage.fileStream` --
the handle's one shared stream, threaded separately as state. -/
def FsDataAccess.createCursor (query : Query) : FileLineCursor :=
  { query, current := 0 }

/-- `FileStorage.select(query)` (lines 106-109): delegates to the
factory's `createCursor(this, query)`. -/
def FileStorage.select (_db : FileStorage) (query : Query) : FileLineCursor :=
  FsDataAccess.createCursor query

/-- Two `select` calls on the same handle, the first cursor driven to
completion and then the second: both cursors' readline iterators wrap
the handle's single `fileStream` (line 73), so the stream state left by
the first run is what the second run reads. -/
def twoSelectsEachToCompletion (db : FileStorage) (q1 q2 : Query) :
    List Record × List Record :=
  let run1 := driveAll db.fileStream (db.select q1)
  let run2 := driveAll run1.stream (db.select q2)
  (run1.yielded, run2.yielded)

/-- Two handles created by two `createDatabase` calls on the same file,
one cursor each: each handle opens its own `fs.createReadStream`, so
the two runs read independent streams over the same content. -/
def twoHandlesEachToCompletion (fileName : String) (content : List RawLine)
    (q1 q2 : Query) : List Record × List Record :=
  let db1 := FsDataAccess.createDatabase fileName content
  let db2 := FsDataAccess.createDatabase fileName content
  ((driveAll db1.fileStream (db1.select q1)).yielded,
   (driveAll db2.fileStream (db2.select q2)).yielded)

/-- A raw line a cursor with query `q` silently skips inside the
`next()` loop: it parses, and the query does not match. -/
def skippable (q : Query) : RawLine → Bool
  | .jsonObj fields => !queryMatches q fields
  | .malformed _ => false

/-- Helper: `next()` consumes a block of skippable lines, counting each
in `current`, and continues on the remainder. -/
theorem cursorNext_skips (pre : List RawLine) (st : List RawLine) (q : Query)
    (n : Nat) (h : pre.all (skippable q) = true) :
    cursorNext (pre ++ st) ⟨q, n⟩ = cursorNext st ⟨q, n + pre.length⟩ := by
  induction pre generalizing n with
  | nil => rfl
  | cons line pre' ih =>
    have hline : skippable q line = true := by
      have := List.all_eq_true.mp h line (by simp)
      simpa using this
    have hpre' : pre'.all (skippable q) = true := by
      rw [List.all_eq_true] at h ⊢
      exact fun l hl => h l (by simp [hl])
    cases line with
    | malformed t => simp [skippable] at hline
    | jsonObj fields =>
      have hm : queryMatches q fields = false := by
        simpa [skippable] using hline
      have := ih (n + 1) hpre'
      simp [cursorNext, jsonParse, hm] at this ⊢
      rw [this]
      have harith : n + 1 + pre'.length = n + (pre'.length + 1) := by omega
      rw [harith]

/-- First record of the demo scenario: `{"city":"Roma","pop":3}`. -/
def romaRecord : Record := [("city", .string "Roma"), ("pop", .number 3)]

/-- Second record of the demo scenario: `{"city":"Milano","pop":5}`. -/
def milanoRecord : Record := [("city", .string "Milano"), ("pop", .number 5)]

/-- Third record of the demo scenario: `{"city":"Roma","pop":1}`. -/
def romaRecord2 : Record := [("city", .string "Roma"), ("pop", .number 1)]

/-- The three-line demo source. -/
def demoStream : List RawLine :=
  [.jsonObj romaRecord, .jsonObj milanoRecord, .jsonObj romaRecord2]

/-- The demo query `{ city: 'Roma' }` (line 117). -/
def romaQuery : Query := [("city", .val (.string "Roma"))]

/-- Helper: advancing preserves `current` plus the remaining stream
length, so `current` counts exactly the raw units removed from the
stream. -/
theorem advanceN_current_add_length (n : Nat) (s : List RawLine × FileLineCursor) :
    (advanceN n s).2.current + (advanceN n s).1.length =
      s.2.current + s.1.length := by
  induction n generalizing s with
  | zero => rfl
  | succ n ih =>
    have h1 := cursorNext_current_add_length s.1 s.2
    have h2 := ih ((cursorNext s.1 s.2).stream, (cursorNext s.1 s.2).cursor)
    simp [advanceN] at h2 ⊢
    omega

/-- Helper: `n + 1` advances are `n` advances followed by one `next()`
call. -/
theorem advanceN_succ_last (n : Nat) (s : List RawLine × FileLineCursor) :
    advanceN (n + 1) s =
      ((cursorNext (advanceN n s).1 (advanceN n s).2).stream,
       (cursorNext (advanceN n s).1 (advanceN n s).2).cursor) := by
  induction n generalizing s with
  | zero => rfl
  | succ n ih =>
    have := ih ((cursorNext s.1 s.2).stream, (cursorNext s.1 s.2).cursor)
    simpa [advanceN] using this

/-- C1: on a well-formed source, a record decoded from the source is
yielded by the cursor iff every field of the query is present in it
with a strictly equal value (exact type-and-value equality, no
coercion); fields of the record not mentioned in the query are
unconstrained, so extra fields still match. -/
theorem claim1_yield_iff_query_matches (st : List RawLine) (q : Query)
    (r : Record) (h : ∀ l ∈ st, l.isJson = true) :
    r ∈ (driveAll st ⟨q, 0⟩).yielded ↔
      r ∈ decodedRecords st ∧ ∀ fv ∈ q, recordGet r fv.1 = fv.2 := by
  rw [driveAll_spec st q 0 h]
  simp [List.mem_filter, queryMatches, List.all_eq_true]

/-- Witness for C1 on the demo scenario. -/
theorem claim1_yield_iff_query_matches_witness :
    (∀ l ∈ demoStream, l.isJson = true) ∧
      (romaRecord ∈ (driveAll demoStream ⟨romaQuery, 0⟩).yielded ↔
        romaRecord ∈ decodedRecords demoStream ∧
          ∀ fv ∈ romaQuery, recordGet romaRecord fv.1 = fv.2) :=
  ⟨by decide, claim1_yield_iff_query_matches demoStream romaQuery romaRecord (by decide)⟩

/-- C4: after any number of caller-visible advance calls, `current`
equals the number of raw units pulled from the underlying source
(stream length consumed, including units skipped inside the loop), and
`current` is monotonically non-decreasing from one advance to the
next. -/
theorem claim4_current_counts_raw_pulls (n : Nat) (st : List RawLine)
    (q : Query) :
    (advanceN n (st, ⟨q, 0⟩)).2.current =
      st.length - (advanceN n (st, ⟨q, 0⟩)).1.length ∧
    (advanceN n (st, ⟨q, 0⟩)).2.current ≤
      (advanceN (n + 1) (st, ⟨q, 0⟩)).2.current := by
  constructor
  · have h := advanceN_current_add_length n (st, ⟨q, 0⟩)
    simp at h
    omega
  · rw [advanceN_succ_last]
    exact cursorNext_current_mono _ _

/-- C5: once a `next()` call reports `{ done: true }`, the stream is
fully consumed; every later advance leaves the state unchanged and
again reports `{ done: true }` -- never a record and never an error. -/
theorem claim5_exhaustion_is_terminal (st : List RawLine) (c : FileLineCursor)
    (h : (cursorNext st c).result = .done) :
    (cursorNext st c).stream = [] ∧
    (∀ k, advanceN k ((cursorNext st c).stream, (cursorNext st c).cursor) =
      ((cursorNext st c).stream, (cursorNext st c).cursor)) ∧
    cursorNext (cursorNext st c).stream (cursorNext st c).cursor =
      ⟨.done, (cursorNext st c).stream, (cursorNext st c).cursor⟩ := by
  have hs := cursorNext_done_stream st c h
  refine ⟨hs, ?_, ?_⟩
  · intro k
    rw [hs]
    exact advanceN_nil k _
  · rw [hs]
    exact cursorNext_nil _

/-- Witness for C5: one non-matching line, then exhaustion. -/
theorem claim5_exhaustion_is_terminal_witness :
    ((cursorNext [RawLine.jsonObj milanoRecord] ⟨romaQuery, 0⟩).result = .done) ∧
    ((cursorNext [RawLine.jsonObj milanoRecord] ⟨romaQuery, 0⟩).stream = [] ∧
      (∀ k, advanceN k
          ((cursorNext [RawLine.jsonObj milanoRecord] ⟨romaQuery, 0⟩).stream,
           (cursorNext [RawLine.jsonObj milanoRecord] ⟨romaQuery, 0⟩).cursor) =
        ((cursorNext [RawLine.jsonObj milanoRecord] ⟨romaQuery, 0⟩).stream,
         (cursorNext [RawLine.jsonObj milanoRecord] ⟨romaQuery, 0⟩).cursor)) ∧
      cursorNext (cursorNext [RawLine.jsonObj milanoRecord] ⟨romaQuery, 0⟩).stream
          (cursorNext [RawLine.jsonObj milanoRecord] ⟨romaQuery, 0⟩).cursor =
        ⟨.done, (cursorNext [RawLine.jsonObj milanoRecord] ⟨romaQuery, 0⟩).stream,
         (cursorNext [RawLine.jsonObj milanoRecord] ⟨romaQuery, 0⟩).cursor⟩) :=
  ⟨by decide, claim5_exhaustion_is_terminal [RawLine.jsonObj milanoRecord]
    ⟨romaQuery, 0⟩ (by decide)⟩

/-- C6: when the advance reaches a malformed raw unit (after silently
skipping only non-matching well-formed units), the `next()` call
reports the `JSON.parse` error to the caller; the malformed unit is not
skipped and no record is yielded by that advance. -/
theorem claim6_decode_error_propagates (pre : List RawLine) (text : String)
    (rest : List RawLine) (q : Query) (n : Nat)
    (h : pre.all (skippable q) = true) :
    cursorNext (pre ++ .malformed text :: rest) ⟨q, n⟩ =
      ⟨.failed (parseErrorMessage text), rest, ⟨q, n + pre.length + 1⟩⟩ := by
  rw [cursorNext_skips pre _ q n h]
  simp [cursorNext, jsonParse]

/-- Witness for C6: the malformed line `not-json` behind one skipped
non-matching record. -/
theorem claim6_decode_error_propagates_witness :
    ([RawLine.jsonObj milanoRecord].all (skippable romaQuery) = true) ∧
    cursorNext ([RawLine.jsonObj milanoRecord] ++ RawLine.malformed "not-json" :: [])
        ⟨romaQuery, 0⟩ =
      ⟨.failed (parseErrorMessage "not-json"), [],
       ⟨romaQuery, 0 + [RawLine.jsonObj milanoRecord].length + 1⟩⟩ :=
  ⟨by decide, claim6_decode_error_propagates [RawLine.jsonObj milanoRecord]
    "not-json" [] romaQuery 0 (by decide)⟩

/-- C7: a cursor with the empty query yields every record of a
well-formed source, unmodified and in source order: the empty query is
the identity filter. -/
theorem claim7_empty_query_identity (st : List RawLine)
    (h : ∀ l ∈ st, l.isJson = true) :
    (driveAll st ⟨[], 0⟩).yielded = decodedRecords st := by
  rw [driveAll_spec st [] 0 h]
  simp [queryMatches]

/-- Witness for C7 on the demo scenario. -/
theorem claim7_empty_query_identity_witness :
    (∀ l ∈ demoStream, l.isJson = true) ∧
      (driveAll demoStream ⟨[], 0⟩).yielded = decodedRecords demoStream :=
  ⟨by decide, claim7_empty_query_identity demoStream (by decide)⟩

/-- C8: on a well-formed source the yielded sequence is exactly the
filter of the decoded records -- an order-preserving subsequence with
no permutation and no duplication -- and every yielded record matches,
so non-matching records are never observed by the caller. -/
theorem claim8_order_preserving_subsequence (st : List RawLine) (q : Query)
    (h : ∀ l ∈ st, l.isJson = true) :
    (driveAll st ⟨q, 0⟩).yielded = (decodedRecords st).filter (queryMatches q) ∧
    (driveAll st ⟨q, 0⟩).yielded.Sublist (decodedRecords st) ∧
    ∀ r ∈ (driveAll st ⟨q, 0⟩).yielded, queryMatches q r = true := by
  rw [driveAll_spec st q 0 h]
  refine ⟨rfl, List.filter_sublist _, ?_⟩
  intro r hr
  exact (List.mem_filter.mp hr).2

/-- Witness for C8 on the demo scenario. -/
theorem claim8_order_preserving_subsequence_witness :
    (∀ l ∈ demoStream, l.isJson = true) ∧
      ((driveAll demoStream ⟨romaQuery, 0⟩).yielded =
        (decodedRecords demoStream).filter (queryMatches romaQuery) ∧
      (driveAll demoStream ⟨romaQuery, 0⟩).yielded.Sublist (decodedRecords demoStream) ∧
      ∀ r ∈ (driveAll demoStream ⟨romaQuery, 0⟩).yielded,
        queryMatches romaQuery r = true) :=
  ⟨by decide, claim8_order_preserving_subsequence demoStream romaQuery (by decide)⟩

/-- C9: `current` is incremented for a pulled raw unit before
`JSON.parse` runs, so after a decode error `current` already counts the
malformed unit; and the `next()` call that observes exhaustion returns
with `current` unchanged -- the exhaustion signal is not counted. -/
theorem claim9_increment_before_decode (text : String) (rest : List RawLine)
    (c : FileLineCursor) :
    cursorNext (.malformed text :: rest) c =
      ⟨.failed (parseErrorMessage text), rest, ⟨c.query, c.current + 1⟩⟩ ∧
    cursorNext [] c = ⟨.done, [], c⟩ :=
  ⟨rfl, rfl⟩

/-- C10: a query field mapped to `undefined` matches exactly those
records in which the field is absent: an absent field reads as
`undefined`, a present field holds a `JSON.parse` value, which is never
`undefined`, and comparison is strict equality.  Such a query is
filtered on, not rejected or ignored. -/
theorem claim10_undefined_query_field_means_absent (field : String)
    (r : Record) (q : Query) :
    queryMatches ((field, JsValue.undef) :: q) r = true ↔
      (r.lookup field = none ∧ queryMatches q r = true) := by
  cases hl : r.lookup field with
  | none => simp [queryMatches, recordGet, hl]
  | some v => simp [queryMatches, recordGet, hl]

/-- C2 counterexample: on the demo file, two cursors from two `select`
calls on the same handle, driven one after the other to completion, do
not both yield the complete matching set: both cursors wrap the
handle's single `fileStream` (line 73), so the first run consumes it
and the second yields nothing although the matching set is
non-empty. -/
theorem claim2_second_cursor_sees_consumed_stream :
    (twoSelectsEachToCompletion
        (FsDataAccess.createDatabase "./storage.dat" demoStream)
        romaQuery romaQuery).1 =
      (decodedRecords demoStream).filter (queryMatches romaQuery) ∧
    (twoSelectsEachToCompletion
        (FsDataAccess.createDatabase "./storage.dat" demoStream)
        romaQuery romaQuery).2 = [] ∧
    (decodedRecords demoStream).filter (queryMatches romaQuery) ≠ [] := by
  decide

/-- C2 amended: every `select` call returns a fresh cursor with its own
`current` counter, but all cursors of one handle share the handle's
single file stream; the raw units are therefore consumed at most once
across them.  A first cursor driven to completion yields the complete
matching set and exhausts the stream, so a second cursor driven
afterwards yields nothing.  Cursors of two handles created by separate
`createDatabase` calls read independent streams and each yield the
complete matching set. -/
theorem claim2_shared_stream_cursors (fileName : String)
    (content : List RawLine) (q1 q2 : Query)
    (h : ∀ l ∈ content, l.isJson = true) :
    twoSelectsEachToCompletion (FsDataAccess.createDatabase fileName content)
        q1 q2 =
      ((decodedRecords content).filter (queryMatches q1), []) ∧
    twoHandlesEachToCompletion fileName content q1 q2 =
      ((decodedRecords content).filter (queryMatches q1),
       (decodedRecords content).filter (queryMatches q2)) := by
  have h1 := driveAll_spec content q1 0 h
  have h2 := driveAll_spec content q2 0 h
  constructor
  · simp [twoSelectsEachToCompletion, FsDataAccess.createDatabase,
      FileStorage.select, FsDataAccess.createCursor, h1, driveAll]
  · simp [twoHandlesEachToCompletion, FsDataAccess.createDatabase,
      FileStorage.select, FsDataAccess.createCursor, h1, h2]

/-- Witness for the amended C2 on the demo scenario. -/
theorem claim2_shared_stream_cursors_witness :
    (∀ l ∈ demoStream, l.isJson = true) ∧
      (twoSelectsEachToCompletion
          (FsDataAccess.createDatabase "./storage.dat" demoStream)
          romaQuery romaQuery =
        ((decodedRecords demoStream).filter (queryMatches romaQuery), []) ∧
      twoHandlesEachToCompletion "./storage.dat" demoStream romaQuery romaQuery =
        ((decodedRecords demoStream).filter (queryMatches romaQuery),
         (decodedRecords demoStream).filter (queryMatches romaQuery))) :=
  ⟨by decide, claim2_shared_stream_cursors "./storage.dat" demoStream
    romaQuery romaQuery (by decide)⟩

/-- C3: the base methods `createDatabase`, `createCursor`, `select` and
`[Symbol.asyncIterator]` do throw when not overridden, but the three
"abstract" constructor guards never fire: each compares
`Object.getPrototypeOf(this)` -- the class's prototype object -- with
the class constructor function itself (lines 11, 42, 56), two objects
that are never identical, so `new DataAccessLayer()`, `new Database(dal)`
and `new Cursor(dal)` all succeed instead of throwing, contradicting
the guards' own error message. -/
theorem claim3_abstract_guards (dal : String) :
    newDataAccessLayer = .ok () ∧
    newDatabase dal = .ok { dal } ∧
    newCursor dal = .ok { dal, current := 0 } ∧
    baseCreateDatabase = .error "abstract class should not be instanciated" ∧
    baseCreateCursor = .error "abstract class should not be instanciated" ∧
    baseSelect = .error "select method is not implemented" ∧
    baseAsyncIterator = .error "iterator is not implemented" := by
  refine ⟨?_, ?_, ?_, rfl, rfl, rfl, rfl⟩ <;>
    simp [newDataAccessLayer, newDatabase, newCursor, dataAccessLayerConstructor,
      databaseConstructor, cursorConstructor, instancePrototype]
